import Mathlib

/-!
Shallow embedding of `pkg/ocisurrogate/driver_oci.go` from
packer-builder-oracle-ocisurrogate, together with proofs about the
resource-lifecycle operations and the generic state-polling primitive.

The remote OCI API is modelled by passing each operation the responses it
would receive: the state-fetch function of the poller becomes the finite
list of results its successive invocations return, and each client call of
the driver operations becomes an `Except`-valued response parameter.  Every
operation additionally reports which remote calls it issued, so that claims
about "no lookup call is made" or "exactly one list call" are statable.

Go runtime panics (indexing `Items[0]` on an empty slice, dereferencing a
nil pointer) are modelled by a dedicated `GoOutcome.panicked` constructor,
distinct from an error value returned to the caller.
-/

set_option autoImplicit false

namespace OciSurrogate

/-- Result of one invocation of the `getResourceState` fetch function of
`waitForResourceToReachState`: either a lifecycle state string or an error
(`(string, error)` in Go). -/
inductive FetchResult where
  | ok (state : String)
  | err (e : String)
  deriving DecidableEq, Repr

/-- Outcome of a run of `waitForResourceToReachState`.
`success` is the `return nil` branch; `fetchError` propagates a fetch error;
`unexpectedState` and `maxRetriesExceeded` carry exactly the data the two
`fmt.Errorf` calls interpolate into their messages.  `pending` marks the
runs where the modelled fetch trace is exhausted while the Go loop would
keep polling (it is not a return of the Go function). -/
inductive PollOutcome where
  | success
  | fetchError (e : String)
  | unexpectedState (observed : String) (waitStates : List String) (terminalState : String)
  | maxRetriesExceeded (maxRetries : Nat) (terminalState : String)
  | pending
  deriving DecidableEq, Repr

/-- A finished poll run: its outcome, how many times the fetch function was
invoked, and how many seconds were spent in `time.Sleep` calls. -/
structure PollRun where
  outcome : PollOutcome
  fetches : Nat
  sleptSeconds : Nat
  deriving DecidableEq, Repr

/-- `stringSliceContains` from driver_oci.go: loops through a slice of
strings returning whether the given value is contained in it. -/
def stringSliceContains (slice : List String) (value : String) : Bool :=
  match slice with
  | [] => false
  | elem :: rest => if elem = value then true else stringSliceContains rest value

/-- The loop body of `waitForResourceToReachState`:
`for i := 0; maxRetries == 0 || i < maxRetries; i++`, where the successive
fetch results are drawn from `trace` and `i` is the loop counter. -/
def waitLoop (waitStates : List String) (terminalState : String) (maxRetries : Nat)
    (waitDurationSeconds : Nat) : List FetchResult → Nat → PollRun
  | trace, i =>
    if maxRetries = 0 ∨ i < maxRetries then
      match trace with
      | [] => ⟨.pending, 0, 0⟩
      | .err e :: _ => ⟨.fetchError e, 1, 0⟩
      | .ok state :: rest =>
        if stringSliceContains waitStates state then
          let r := waitLoop waitStates terminalState maxRetries waitDurationSeconds rest (i + 1)
          ⟨r.outcome, r.fetches + 1, r.sleptSeconds + waitDurationSeconds⟩
        else if state = terminalState then
          ⟨.success, 1, 0⟩
        else
          ⟨.unexpectedState state waitStates terminalState, 1, 0⟩
    else
      ⟨.maxRetriesExceeded maxRetries terminalState, 0, 0⟩

/-- `waitForResourceToReachState` from driver_oci.go.  The stateful
`getResourceState` closure is modelled by the list of results its
successive invocations return; `id` is the resource id the Go code passes
to the fetch function (the fetch closures in the source ignore it). -/
def waitForResourceToReachState (getResourceState : List FetchResult) (id : String)
    (waitStates : List String) (terminalState : String) (maxRetries : Nat)
    (waitDurationSeconds : Nat) : PollRun :=
  let _ := id
  waitLoop waitStates terminalState maxRetries waitDurationSeconds getResourceState 0

/-- Consuming a block of waiting-state observations: each one sleeps and
continues, adding one fetch and one sleep, and the loop then proceeds on
the remaining trace with the counter advanced past the block. -/
theorem waitLoop_append_waiting (waitStates : List String) (terminalState : String)
    (maxRetries : Nat) (waitDurationSeconds : Nat) (pre : List String)
    (suffix : List FetchResult) (i : Nat)
    (hpre : ∀ s ∈ pre, stringSliceContains waitStates s = true)
    (hbudget : maxRetries = 0 ∨ i + pre.length ≤ maxRetries) :
    waitLoop waitStates terminalState maxRetries waitDurationSeconds
        (pre.map FetchResult.ok ++ suffix) i =
      { outcome := (waitLoop waitStates terminalState maxRetries waitDurationSeconds
          suffix (i + pre.length)).outcome,
        fetches := (waitLoop waitStates terminalState maxRetries waitDurationSeconds
          suffix (i + pre.length)).fetches + pre.length,
        sleptSeconds := (waitLoop waitStates terminalState maxRetries waitDurationSeconds
          suffix (i + pre.length)).sleptSeconds + pre.length * waitDurationSeconds } := by
  induction pre generalizing i with
  | nil => simp
  | cons s ps ih =>
    have hcond : maxRetries = 0 ∨ i < maxRetries := by
      rcases hbudget with h | h
      · exact Or.inl h
      · exact Or.inr (by simp at h; omega)
    have hs : stringSliceContains waitStates s = true := hpre s (by simp)
    have hrest : ∀ x ∈ ps, stringSliceContains waitStates x = true :=
      fun x hx => hpre x (by simp [hx])
    have hbudget' : maxRetries = 0 ∨ (i + 1) + ps.length ≤ maxRetries := by
      rcases hbudget with h | h
      · exact Or.inl h
      · exact Or.inr (by simp at h; omega)
    rw [List.map_cons, List.cons_append, waitLoop]
    simp only [hcond, if_pos, hs, if_true]
    rw [ih (i + 1) hrest hbudget']
    have hlen : i + 1 + ps.length = i + (s :: ps).length := by simp; omega
    rw [hlen]
    simp [PollRun.mk.injEq, Nat.succ_mul]
    omega

/-- When the loop condition `maxRetries == 0 || i < maxRetries` fails, the
loop exits at once with the max-retries-exceeded error, performing no fetch. -/
theorem waitLoop_budget_exhausted (waitStates : List String) (terminalState : String)
    (maxRetries : Nat) (waitDurationSeconds : Nat) (trace : List FetchResult) (i : Nat)
    (h : ¬ (maxRetries = 0 ∨ i < maxRetries)) :
    waitLoop waitStates terminalState maxRetries waitDurationSeconds trace i =
      ⟨.maxRetriesExceeded maxRetries terminalState, 0, 0⟩ := by
  cases trace with
  | nil => rw [waitLoop, if_neg h]
  | cons fr rest => cases fr <;> rw [waitLoop, if_neg h]

/-- One invocation on the suffix after a waiting block, when it observes the
terminal state (not in the waiting set): `return nil`. -/
theorem waitLoop_terminal (waitStates : List String) (terminalState : String)
    (maxRetries : Nat) (waitDurationSeconds : Nat) (i : Nat)
    (hterm : stringSliceContains waitStates terminalState = false)
    (hcond : maxRetries = 0 ∨ i < maxRetries) :
    waitLoop waitStates terminalState maxRetries waitDurationSeconds
        [FetchResult.ok terminalState] i = ⟨.success, 1, 0⟩ := by
  rw [waitLoop]
  simp [hcond, hterm]

/-- C1 (counterexample): the claim fails as stated when the terminal target
state is itself a member of the waiting set.  With waiting set `["A"]`,
terminal state `"A"`, unlimited retries and the one-element trace
`[ok "A"]` — a sequence drawn from the waiting set followed by exactly one
occurrence of the terminal state — the poller consumes the whole trace
without returning success: the terminal observation is treated as a waiting
observation (sleep five seconds and continue), so the run does not succeed. -/
theorem C1_counterexample :
    waitForResourceToReachState [FetchResult.ok "A"] "res-1" ["A"] "A" 0 5 =
        ⟨.pending, 1, 5⟩ ∧
      (waitForResourceToReachState [FetchResult.ok "A"] "res-1" ["A"] "A" 0 5).outcome ≠
        PollOutcome.success := by
  constructor
  · rfl
  · decide

/-- C1 (amended): if the fetch trace is a block of waiting-set states
followed by one occurrence of the terminal state, the terminal state is not
itself in the waiting set, and the retry budget does not expire first, the
poller returns success after exactly as many fetches as the trace is long
(each waiting observation sleeps the fixed delay and continues, and the
terminal observation returns success immediately). -/
theorem C1_amended_poller_success
    (pre : List String) (id : String) (waitStates : List String)
    (terminalState : String) (maxRetries : Nat) (waitDurationSeconds : Nat)
    (hpre : ∀ s ∈ pre, stringSliceContains waitStates s = true)
    (hterm : stringSliceContains waitStates terminalState = false)
    (hbudget : maxRetries = 0 ∨ pre.length < maxRetries) :
    waitForResourceToReachState
        (pre.map FetchResult.ok ++ [FetchResult.ok terminalState]) id
        waitStates terminalState maxRetries waitDurationSeconds =
      ⟨.success, pre.length + 1, pre.length * waitDurationSeconds⟩ := by
  have hb : maxRetries = 0 ∨ 0 + pre.length ≤ maxRetries := by
    rcases hbudget with h | h
    · exact Or.inl h
    · exact Or.inr (by omega)
  unfold waitForResourceToReachState
  rw [waitLoop_append_waiting waitStates terminalState maxRetries waitDurationSeconds
    pre [FetchResult.ok terminalState] 0 hpre hb]
  have hc : maxRetries = 0 ∨ 0 + pre.length < maxRetries := by
    rcases hbudget with h | h
    · exact Or.inl h
    · exact Or.inr (by omega)
  rw [waitLoop_terminal waitStates terminalState maxRetries waitDurationSeconds
    (0 + pre.length) hterm hc]
  simp [Nat.add_comm]

/-- Witness for C1 (amended) at a concrete input: two `PROVISIONING`
observations then `RUNNING`, with unlimited retries. -/
theorem C1_amended_poller_success_witness :
    waitForResourceToReachState
        ([ "PROVISIONING", "PROVISIONING" ].map FetchResult.ok ++
          [FetchResult.ok "RUNNING"]) "i-1" ["PROVISIONING"] "RUNNING" 0 5 =
      ⟨.success, 3, 10⟩ :=
  C1_amended_poller_success ["PROVISIONING", "PROVISIONING"] "i-1" ["PROVISIONING"]
    "RUNNING" 0 5 (by decide) (by decide) (Or.inl rfl)

/-- C2: if the run observes waiting-set states at positions `0 .. k-1` and,
at position `k`, a state that is neither in the waiting set nor equal to
the terminal target (the retry budget not having expired), the poller fails
at invocation `k+1` with an unexpected-state error carrying the observed
state, the expected waiting set and the expected terminal state, and
performs no further fetch invocations (the rest of the trace is untouched). -/
theorem C2_poller_unexpected_state
    (pre : List String) (s : String) (rest : List FetchResult) (id : String)
    (waitStates : List String) (terminalState : String) (maxRetries : Nat)
    (waitDurationSeconds : Nat)
    (hpre : ∀ x ∈ pre, stringSliceContains waitStates x = true)
    (hs : stringSliceContains waitStates s = false)
    (hst : s ≠ terminalState)
    (hbudget : maxRetries = 0 ∨ pre.length < maxRetries) :
    waitForResourceToReachState
        (pre.map FetchResult.ok ++ FetchResult.ok s :: rest) id
        waitStates terminalState maxRetries waitDurationSeconds =
      ⟨.unexpectedState s waitStates terminalState, pre.length + 1,
        pre.length * waitDurationSeconds⟩ := by
  have hb : maxRetries = 0 ∨ 0 + pre.length ≤ maxRetries := by
    rcases hbudget with h | h
    · exact Or.inl h
    · exact Or.inr (by omega)
  have hc : maxRetries = 0 ∨ 0 + pre.length < maxRetries := by
    rcases hbudget with h | h
    · exact Or.inl h
    · exact Or.inr (by omega)
  unfold waitForResourceToReachState
  rw [waitLoop_append_waiting waitStates terminalState maxRetries waitDurationSeconds
    pre (FetchResult.ok s :: rest) 0 hpre hb]
  rw [waitLoop]
  simp [hbudget, hs, hst, Nat.add_comm]

/-- Witness for C2 at a concrete input: one waiting observation, then the
unexpected state `"FAULTED"`; the trailing trace entry is never fetched. -/
theorem C2_poller_unexpected_state_witness :
    waitForResourceToReachState
        ([ "ATTACHING" ].map FetchResult.ok ++
          FetchResult.ok "FAULTED" :: [FetchResult.ok "ATTACHED"]) "va-1"
        ["ATTACHING"] "ATTACHED" 0 5 =
      ⟨.unexpectedState "FAULTED" ["ATTACHING"] "ATTACHED", 2, 5⟩ :=
  C2_poller_unexpected_state ["ATTACHING"] "FAULTED" [FetchResult.ok "ATTACHED"]
    "va-1" ["ATTACHING"] "ATTACHED" 0 5 (by decide) (by decide) (by decide)
    (Or.inl rfl)

/-- C3: with a bounded retry budget `N > 0` and a fetch trace whose first
`N` results are all waiting-set states (the terminal state never observed),
the poller fails with a max-retries-exceeded error carrying the budget `N`
and the terminal target state, after exactly `N` fetch invocations. -/
theorem C3_poller_max_retries
    (pre : List String) (rest : List FetchResult) (id : String)
    (waitStates : List String) (terminalState : String) (waitDurationSeconds : Nat)
    (hpos : 0 < pre.length)
    (hpre : ∀ x ∈ pre, stringSliceContains waitStates x = true) :
    waitForResourceToReachState (pre.map FetchResult.ok ++ rest) id
        waitStates terminalState pre.length waitDurationSeconds =
      ⟨.maxRetriesExceeded pre.length terminalState, pre.length,
        pre.length * waitDurationSeconds⟩ := by
  unfold waitForResourceToReachState
  rw [waitLoop_append_waiting waitStates terminalState pre.length waitDurationSeconds
    pre rest 0 hpre (Or.inr (by omega))]
  have hcond : ¬ (pre.length = 0 ∨ 0 + pre.length < pre.length) := by omega
  rw [waitLoop_budget_exhausted waitStates terminalState pre.length waitDurationSeconds
    rest (0 + pre.length) hcond]
  simp [Nat.add_comm]

/-- Witness for C3 at a concrete input: budget 2, two waiting observations. -/
theorem C3_poller_max_retries_witness :
    waitForResourceToReachState
        ([ "PROVISIONING", "PROVISIONING" ].map FetchResult.ok ++
          [FetchResult.ok "AVAILABLE"]) "img-1" ["PROVISIONING"] "AVAILABLE"
        ([ "PROVISIONING", "PROVISIONING" ] : List String).length 5 =
      ⟨.maxRetriesExceeded 2 "AVAILABLE", 2, 10⟩ :=
  C3_poller_max_retries ["PROVISIONING", "PROVISIONING"] [FetchResult.ok "AVAILABLE"]
    "img-1" ["PROVISIONING"] "AVAILABLE" 5 (by decide) (by decide)

/-- Helper for C10: when the terminal state is contained in the waiting set,
no run of the poll loop ever returns success — the waiting-set branch is
checked first, so the success branch is unreachable. -/
theorem waitLoop_no_success_of_terminal_waiting (waitStates : List String)
    (terminalState : String) (maxRetries : Nat) (waitDurationSeconds : Nat)
    (hterm : stringSliceContains waitStates terminalState = true) :
    ∀ (trace : List FetchResult) (i : Nat),
      (waitLoop waitStates terminalState maxRetries waitDurationSeconds trace i).outcome ≠
        PollOutcome.success := by
  intro trace
  induction trace with
  | nil =>
    intro i
    rw [waitLoop]
    by_cases hcond : maxRetries = 0 ∨ i < maxRetries <;> simp [hcond]
  | cons fr rest ih =>
    intro i
    by_cases hcond : maxRetries = 0 ∨ i < maxRetries
    · cases fr with
      | err e =>
        rw [waitLoop, if_pos hcond]
        simp
      | ok state =>
        rw [waitLoop, if_pos hcond]
        by_cases hw : stringSliceContains waitStates state = true
        · simpa [hw] using ih (i + 1)
        · by_cases hst : state = terminalState
          · exact absurd (hst ▸ hterm) hw
          · simp [hw, hst]
    · rw [waitLoop_budget_exhausted waitStates terminalState maxRetries
        waitDurationSeconds (fr :: rest) i hcond]
      simp

/-- C10: the waiting-set check precedes the terminal check.  If the
terminal target state is a member of the waiting set, observing it causes a
sleep-and-continue (one more fetch, one more sleep, counter advanced)
rather than an immediate success return, and no run of such a poll — on
any fetch trace, from any loop counter — can return success. -/
theorem C10_waiting_precedence (waitStates : List String) (terminalState : String)
    (maxRetries : Nat) (waitDurationSeconds : Nat)
    (hterm : stringSliceContains waitStates terminalState = true) :
    (∀ (rest : List FetchResult) (i : Nat), (maxRetries = 0 ∨ i < maxRetries) →
        waitLoop waitStates terminalState maxRetries waitDurationSeconds
            (FetchResult.ok terminalState :: rest) i =
          { outcome := (waitLoop waitStates terminalState maxRetries
              waitDurationSeconds rest (i + 1)).outcome,
            fetches := (waitLoop waitStates terminalState maxRetries
              waitDurationSeconds rest (i + 1)).fetches + 1,
            sleptSeconds := (waitLoop waitStates terminalState maxRetries
              waitDurationSeconds rest (i + 1)).sleptSeconds + waitDurationSeconds }) ∧
      ∀ (trace : List FetchResult) (id : String),
        (waitForResourceToReachState trace id waitStates terminalState maxRetries
            waitDurationSeconds).outcome ≠ PollOutcome.success := by
  constructor
  · intro rest i hcond
    rw [waitLoop]
    simp [hcond, hterm]
  · intro trace id
    exact waitLoop_no_success_of_terminal_waiting waitStates terminalState maxRetries
      waitDurationSeconds hterm trace 0

/-- Witness for C10 at a concrete input: waiting set `["A", "B"]` with
terminal state `"A"`. -/
theorem C10_waiting_precedence_witness :
    waitLoop ["A", "B"] "A" 0 5 [FetchResult.ok "A"] 0 =
        { outcome := (waitLoop ["A", "B"] "A" 0 5 [] 1).outcome,
          fetches := (waitLoop ["A", "B"] "A" 0 5 [] 1).fetches + 1,
          sleptSeconds := (waitLoop ["A", "B"] "A" 0 5 [] 1).sleptSeconds + 5 } ∧
      (waitForResourceToReachState [FetchResult.ok "A"] "res-2" ["A", "B"] "A" 0
          5).outcome ≠ PollOutcome.success :=
  ⟨(C10_waiting_precedence ["A", "B"] "A" 0 5 (by decide)).1 [] 0 (Or.inl rfl),
    (C10_waiting_precedence ["A", "B"] "A" 0 5 (by decide)).2 [FetchResult.ok "A"]
      "res-2"⟩

/-! ### The four WaitFor* adapters (driver_oci.go lines 257–330)

Each one passes a fetch closure over the respective get-by-id call, the
resource id, a waiting set, a terminal state, `0` (unlimited retries) and
`5*time.Second`.  The closure is modelled as the list of its successive
results, exactly as for the generic poller. -/

/-- `WaitForImageCreation`: hard-wires waiting set `["PROVISIONING"]` and
terminal state `"AVAILABLE"`. -/
def WaitForImageCreation (getImageState : List FetchResult) (id : String) : PollRun :=
  waitForResourceToReachState getImageState id ["PROVISIONING"] "AVAILABLE" 0 5

/-- `WaitForInstanceState`: caller-supplied waiting set and terminal state. -/
def WaitForInstanceState (getInstanceState : List FetchResult) (id : String)
    (waitStates : List String) (terminalState : String) : PollRun :=
  waitForResourceToReachState getInstanceState id waitStates terminalState 0 5

/-- `WaitForBootVolumeState`: caller-supplied waiting set and terminal state. -/
def WaitForBootVolumeState (getBootVolumeState : List FetchResult) (id : String)
    (waitStates : List String) (terminalState : String) : PollRun :=
  waitForResourceToReachState getBootVolumeState id waitStates terminalState 0 5

/-- `WaitForVolumeAttachmentState`: caller-supplied waiting set and terminal
state. -/
def WaitForVolumeAttachmentState (getVolumeAttachmentState : List FetchResult)
    (id : String) (waitStates : List String) (terminalState : String) : PollRun :=
  waitForResourceToReachState getVolumeAttachmentState id waitStates terminalState 0 5

/-- C9: each of the four WaitFor* operations invokes the State Poller with
an unlimited retry count (`maxRetries = 0`) and the fixed five-second
inter-poll delay, and the image wait uses exactly the waiting set
`["PROVISIONING"]` with terminal state `"AVAILABLE"`. -/
theorem C9_waitFor_adapters (trace : List FetchResult) (id : String)
    (waitStates : List String) (terminalState : String) :
    WaitForImageCreation trace id =
        waitForResourceToReachState trace id ["PROVISIONING"] "AVAILABLE" 0 5 ∧
      WaitForInstanceState trace id waitStates terminalState =
        waitForResourceToReachState trace id waitStates terminalState 0 5 ∧
      WaitForBootVolumeState trace id waitStates terminalState =
        waitForResourceToReachState trace id waitStates terminalState 0 5 ∧
      WaitForVolumeAttachmentState trace id waitStates terminalState =
        waitForResourceToReachState trace id waitStates terminalState 0 5 :=
  ⟨rfl, rfl, rfl, rfl⟩

/-- C7 (counterexample): the poll loop does not abort mid-sleep on
cancellation.  Modelling a context cancelled during the first sleep — the
first fetch observes a waiting state, every later fetch returns the
`"context canceled"` error the cancelled context induces in the remote
call — the poller completes the full five-second sleep and performs a
second fetch (two fetches, five seconds slept), instead of aborting with a
cancellation error after one fetch and an interrupted sleep as the claim
requires. -/
theorem C7_counterexample :
    waitForResourceToReachState
        [FetchResult.ok "PROVISIONING", FetchResult.err "context canceled"]
        "i-1" ["PROVISIONING"] "RUNNING" 0 5 =
      ⟨.fetchError "context canceled", 2, 5⟩ := by
  rfl

/-- C7 (amended): the poll loop never consults the caller's context itself —
`waitForResourceToReachState` does not receive it — so cancellation only
surfaces through the fetch function: after a block of waiting observations
(each followed by a completed fixed-delay sleep), a fetch that returns the
cancellation-induced error terminates the loop with that error propagated,
after `k+1` fetches and `k` full sleeps. -/
theorem C7_amended_cancellation_via_fetch
    (pre : List String) (e : String) (rest : List FetchResult) (id : String)
    (waitStates : List String) (terminalState : String) (maxRetries : Nat)
    (waitDurationSeconds : Nat)
    (hpre : ∀ x ∈ pre, stringSliceContains waitStates x = true)
    (hbudget : maxRetries = 0 ∨ pre.length < maxRetries) :
    waitForResourceToReachState (pre.map FetchResult.ok ++ FetchResult.err e :: rest)
        id waitStates terminalState maxRetries waitDurationSeconds =
      ⟨.fetchError e, pre.length + 1, pre.length * waitDurationSeconds⟩ := by
  have hb : maxRetries = 0 ∨ 0 + pre.length ≤ maxRetries := by
    rcases hbudget with h | h
    · exact Or.inl h
    · exact Or.inr (by omega)
  have hc : maxRetries = 0 ∨ 0 + pre.length < maxRetries := by
    rcases hbudget with h | h
    · exact Or.inl h
    · exact Or.inr (by omega)
  unfold waitForResourceToReachState
  rw [waitLoop_append_waiting waitStates terminalState maxRetries waitDurationSeconds
    pre (FetchResult.err e :: rest) 0 hpre hb]
  rw [waitLoop, if_pos hc]
  simp [Nat.add_comm]

/-- Witness for C7 (amended) at a concrete input: cancellation error on the
third fetch after two waiting observations. -/
theorem C7_amended_cancellation_via_fetch_witness :
    waitForResourceToReachState
        ([ "STOPPING", "STOPPING" ].map FetchResult.ok ++
          FetchResult.err "context canceled" :: []) "i-2" ["STOPPING"] "STOPPED"
        0 5 =
      ⟨.fetchError "context canceled", 3, 10⟩ :=
  C7_amended_cancellation_via_fetch ["STOPPING", "STOPPING"] "context canceled" []
    "i-2" ["STOPPING"] "STOPPED" 0 5 (by decide) (Or.inl rfl)

/-! ### Driver operations: CreateInstance, CreateBootClone, GetInstanceIP

The remote client is modelled by passing each operation the responses its
calls would receive; each run records the calls that were actually issued. -/

/-- Outcome of a driver operation as observed in Go: a returned value, a
returned error, or a runtime panic (index out of range on an empty slice,
nil-pointer dereference) that never produces a return value at all. -/
inductive GoOutcome (α : Type) where
  | ok (a : α)
  | error (e : String)
  | panicked (msg : String)
  deriving DecidableEq, Repr

/-- The subset of `Config` (builder/config.go) that the modelled driver
operations read. -/
structure Config where
  BaseImageID : String
  BaseImageName : String
  CompartmentID : String
  AvailabilityDomain : String
  Shape : String
  SubnetID : String
  InstanceName : String
  UserData : String
  Metadata : List (String × String)
  BootVolumeSizeInGBs : Int
  UsePrivateIP : Bool
  deriving DecidableEq, Repr

/-- An image descriptor as returned by `ListImages` (`Id` is `*string` in
the SDK, hence optional). -/
structure OCIImage where
  Id : Option String
  deriving DecidableEq, Repr

/-- An instance descriptor as returned by `LaunchInstance`. -/
structure OCIInstance where
  Id : Option String
  deriving DecidableEq, Repr

/-- The `SourceDetails` of a launch request: either
`InstanceSourceViaImageDetails` or `InstanceSourceViaBootVolumeDetails`. -/
inductive InstanceSourceDetails where
  | viaImage (imageId : String) (bootVolumeSizeInGBs : Int)
  | viaBootVolume (bootVolumeId : String)
  deriving DecidableEq, Repr

/-- The `LaunchInstanceDetails` of an issued `LaunchInstance` call. -/
structure LaunchInstanceDetails where
  availabilityDomain : String
  compartmentId : String
  shape : String
  metadata : List (String × String)
  subnetId : String
  sourceDetails : InstanceSourceDetails
  displayName : Option String
  deriving DecidableEq, Repr

/-- Insert-or-replace on an association list, modelling a Go map update. -/
def mapUpdate (m : List (String × String)) (k v : String) : List (String × String) :=
  match m with
  | [] => [(k, v)]
  | (k0, v0) :: rest =>
    if k0 = k then (k, v) :: rest else (k0, v0) :: mapUpdate rest k v

/-- The metadata bundle CreateInstance builds: the `ssh_authorized_keys`
entry, overlaid with the configured metadata map, then with the `user_data`
entry when `UserData` is non-empty. -/
def metadataBundle (publicKey : String) (cfgMetadata : List (String × String))
    (userData : String) : List (String × String) :=
  let merged := cfgMetadata.foldl (fun m kv => mapUpdate m kv.1 kv.2)
    [("ssh_authorized_keys", publicKey)]
  if userData ≠ "" then mapUpdate merged "user_data" userData else merged

/-- A finished `CreateInstance` run: its outcome, the number of `ListImages`
calls issued, and the `LaunchInstance` calls issued (with their details). -/
structure CreateInstanceRun where
  result : GoOutcome String
  listImagesCalls : Nat
  launchCalls : List LaunchInstanceDetails
  deriving DecidableEq, Repr

/-- The launch step of `CreateInstance` (driver_oci.go lines 72–103): the
source details start as via-image and are replaced by via-boot-volume when
`surrogateVolumeId` is non-empty; the display name is set only when
`InstanceName` is non-empty; `*instance.Id` is dereferenced on success. -/
def launchStep (cfg : Config) (metadata : List (String × String))
    (surrogateVolumeId : String) (imageId : String)
    (launchResp : Except String OCIInstance) (lookups : Nat) : CreateInstanceRun :=
  let sourcedetails :=
    if surrogateVolumeId ≠ "" then
      InstanceSourceDetails.viaBootVolume surrogateVolumeId
    else
      InstanceSourceDetails.viaImage imageId cfg.BootVolumeSizeInGBs
  let instanceDetails : LaunchInstanceDetails :=
    { availabilityDomain := cfg.AvailabilityDomain
      compartmentId := cfg.CompartmentID
      shape := cfg.Shape
      metadata := metadata
      subnetId := cfg.SubnetID
      sourceDetails := sourcedetails
      displayName := if cfg.InstanceName ≠ "" then some cfg.InstanceName else none }
  match launchResp with
  | .error e => ⟨.error e, lookups, [instanceDetails]⟩
  | .ok instance_ =>
    match instance_.Id with
    | none => ⟨.panicked "nil pointer dereference", lookups, [instanceDetails]⟩
    | some instanceId => ⟨.ok instanceId, lookups, [instanceDetails]⟩

/-- `CreateInstance` from driver_oci.go (lines 49–104).  When
`BaseImageName` is non-empty a `ListImages` call is issued and
`*imageIdList.Items[0].Id` is read — indexing `Items[0]` on an empty
result slice is a Go runtime panic, not an error return.  The launch step
then runs with the resolved image id (or `BaseImageID` when no name is
configured). -/
def CreateInstance (cfg : Config) (publicKey : String) (surrogateVolumeId : String)
    (listImagesResp : Except String (List OCIImage))
    (launchResp : Except String OCIInstance) : CreateInstanceRun :=
  if cfg.BaseImageName ≠ "" then
    match listImagesResp with
    | .error e => ⟨.error e, 1, []⟩
    | .ok [] => ⟨.panicked "index out of range", 1, []⟩
    | .ok (img :: _) =>
      match img.Id with
      | none => ⟨.panicked "nil pointer dereference", 1, []⟩
      | some imageId =>
        launchStep cfg (metadataBundle publicKey cfg.Metadata cfg.UserData)
          surrogateVolumeId imageId launchResp 1
  else
    launchStep cfg (metadataBundle publicKey cfg.Metadata cfg.UserData)
      surrogateVolumeId cfg.BaseImageID launchResp 0

/-- A boot-volume attachment as returned by `ListBootVolumeAttachments`. -/
structure BootVolumeAttachment where
  BootVolumeId : Option String
  deriving DecidableEq, Repr

/-- A boot volume as returned by `CreateBootVolume`. -/
structure OCIBootVolume where
  Id : Option String
  deriving DecidableEq, Repr

/-- The `CreateBootVolumeDetails` of an issued `CreateBootVolume` call; the
source is "from boot volume `sourceBootVolumeId`" (the SDK pointer is
passed through without dereference, hence optional). -/
structure CreateBootVolumeCall where
  availabilityDomain : String
  compartmentId : String
  sourceBootVolumeId : Option String
  sizeInGBs : Int
  deriving DecidableEq, Repr

/-- A finished `CreateBootClone` run: its outcome and the
`CreateBootVolume` calls issued. -/
structure CreateBootCloneRun where
  result : GoOutcome String
  createBootVolumeCalls : List CreateBootVolumeCall
  deriving DecidableEq, Repr

/-- `CreateBootClone` from driver_oci.go (lines 107–138): lists the
instance's boot-volume attachments, then reads
`BootVolumeDetails.Items[0].BootVolumeId` — indexing `Items[0]` on an
empty attachment list is a Go runtime panic, not an error return — and
issues a `CreateBootVolume` call sourced from that id, sized per
configuration; `*res.BootVolume.Id` is dereferenced on success. -/
def CreateBootClone (cfg : Config) (instanceId : String)
    (listAttachmentsResp : Except String (List BootVolumeAttachment))
    (createBootVolumeResp : Except String OCIBootVolume) : CreateBootCloneRun :=
  let _ := instanceId
  match listAttachmentsResp with
  | .error e => ⟨.error e, []⟩
  | .ok [] => ⟨.panicked "index out of range", []⟩
  | .ok (attachment :: _) =>
    let call : CreateBootVolumeCall :=
      { availabilityDomain := cfg.AvailabilityDomain
        compartmentId := cfg.CompartmentID
        sourceBootVolumeId := attachment.BootVolumeId
        sizeInGBs := cfg.BootVolumeSizeInGBs }
    match createBootVolumeResp with
    | .error e => ⟨.error e, [call]⟩
    | .ok vol =>
      match vol.Id with
      | none => ⟨.panicked "nil pointer dereference", [call]⟩
      | some volumeId => ⟨.ok volumeId, [call]⟩

/-- A VNIC attachment as returned by `ListVnicAttachments`. -/
structure VnicAttachment where
  VnicId : Option String
  deriving DecidableEq, Repr

/-- A VNIC detail as returned by `GetVnic` (`PrivateIp` and `PublicIp` are
`*string` in the SDK, hence optional). -/
structure Vnic where
  PrivateIp : Option String
  PublicIp : Option String
  deriving DecidableEq, Repr

/-- A finished `GetInstanceIP` run: its outcome and the `GetVnic` calls
issued (each recorded by the VNIC id pointer it passed). -/
structure GetInstanceIPRun where
  result : GoOutcome String
  getVnicCalls : List (Option String)
  deriving DecidableEq, Repr

/-- `GetInstanceIP` from driver_oci.go (lines 198–225): lists VNIC
attachments, fails with `"instance has zero VNICs"` on an empty list,
fetches the first attachment's VNIC detail, and returns
`*vnic.PrivateIp` when `UsePrivateIP` is set (a nil private address is a
Go runtime panic), otherwise the public address, failing explicitly when
`PublicIp` is nil. -/
def GetInstanceIP (cfg : Config) (id : String)
    (listVnicsResp : Except String (List VnicAttachment))
    (getVnicResp : Except String Vnic) : GetInstanceIPRun :=
  match listVnicsResp with
  | .error e => ⟨.error e, []⟩
  | .ok [] => ⟨.error "instance has zero VNICs", []⟩
  | .ok (attachment :: _) =>
    match getVnicResp with
    | .error e => ⟨.error ("Error getting VNIC details: " ++ e), [attachment.VnicId]⟩
    | .ok vnic =>
      if cfg.UsePrivateIP then
        match vnic.PrivateIp with
        | none => ⟨.panicked "nil pointer dereference", [attachment.VnicId]⟩
        | some p => ⟨.ok p, [attachment.VnicId]⟩
      else
        match vnic.PublicIp with
        | none => ⟨.error ("Error getting VNIC Public Ip for: " ++ id), [attachment.VnicId]⟩
        | some p => ⟨.ok p, [attachment.VnicId]⟩

/-- A sample configuration used to evaluate the operations at concrete
inputs. -/
def sampleConfig : Config :=
  { BaseImageID := "ocid1.image.base"
    BaseImageName := ""
    CompartmentID := "ocid1.compartment.c1"
    AvailabilityDomain := "AD-1"
    Shape := "VM.Standard2.1"
    SubnetID := "ocid1.subnet.s1"
    InstanceName := ""
    UserData := ""
    Metadata := []
    BootVolumeSizeInGBs := 50
    UsePrivateIP := false }

/-- Every launch call issued by `launchStep` carries the source details
selected by the surrogate-volume sentinel. -/
theorem launchStep_sourceDetails (cfg : Config) (metadata : List (String × String))
    (surrogateVolumeId : String) (imageId : String)
    (launchResp : Except String OCIInstance) (lookups : Nat) (d : LaunchInstanceDetails)
    (hd : d ∈ (launchStep cfg metadata surrogateVolumeId imageId launchResp
      lookups).launchCalls) :
    d.sourceDetails =
      if surrogateVolumeId ≠ "" then
        InstanceSourceDetails.viaBootVolume surrogateVolumeId
      else
        InstanceSourceDetails.viaImage imageId cfg.BootVolumeSizeInGBs := by
  cases launchResp with
  | error e =>
    simp [launchStep] at hd
    subst hd
    by_cases hsv : surrogateVolumeId = "" <;> simp [hsv]
  | ok instance_ =>
    obtain ⟨oid⟩ := instance_
    cases oid with
    | none =>
      simp [launchStep] at hd
      subst hd
      by_cases hsv : surrogateVolumeId = "" <;> simp [hsv]
    | some instanceId =>
      simp [launchStep] at hd
      subst hd
      by_cases hsv : surrogateVolumeId = "" <;> simp [hsv]

/-- `launchStep` reports exactly the `ListImages` count it was handed. -/
theorem launchStep_listImagesCalls (cfg : Config) (metadata : List (String × String))
    (surrogateVolumeId : String) (imageId : String)
    (launchResp : Except String OCIInstance) (lookups : Nat) :
    (launchStep cfg metadata surrogateVolumeId imageId launchResp
      lookups).listImagesCalls = lookups := by
  cases launchResp with
  | error e => rfl
  | ok instance_ =>
    obtain ⟨oid⟩ := instance_
    cases oid <;> rfl

/-- Every launch call a `CreateInstance` run issues carries the source
details selected by the surrogate-volume sentinel. -/
theorem CreateInstance_launch_source (cfg : Config) (publicKey : String)
    (surrogateVolumeId : String) (listImagesResp : Except String (List OCIImage))
    (launchResp : Except String OCIInstance) (d : LaunchInstanceDetails)
    (hd : d ∈ (CreateInstance cfg publicKey surrogateVolumeId listImagesResp
      launchResp).launchCalls) :
    ∃ imageId, d.sourceDetails =
      if surrogateVolumeId ≠ "" then
        InstanceSourceDetails.viaBootVolume surrogateVolumeId
      else
        InstanceSourceDetails.viaImage imageId cfg.BootVolumeSizeInGBs := by
  by_cases hn : cfg.BaseImageName = ""
  · simp only [CreateInstance, hn, ne_eq, not_true_eq_false, if_false] at hd
    exact ⟨cfg.BaseImageID, launchStep_sourceDetails cfg
      (metadataBundle publicKey cfg.Metadata cfg.UserData) surrogateVolumeId
      cfg.BaseImageID launchResp 0 d hd⟩
  · simp only [CreateInstance, hn, ne_eq, not_false_eq_true, if_true] at hd
    cases listImagesResp with
    | error e => simp at hd
    | ok items =>
      cases items with
      | nil => simp at hd
      | cons img rest =>
        obtain ⟨oid⟩ := img
        cases oid with
        | none => simp at hd
        | some imageId =>
          exact ⟨imageId, launchStep_sourceDetails cfg
            (metadataBundle publicKey cfg.Metadata cfg.UserData) surrogateVolumeId
            imageId launchResp 1 d hd⟩

/-- A `CreateInstance` run issues one `ListImages` call exactly when a base
image name is configured, regardless of the other inputs. -/
theorem CreateInstance_listImagesCalls (cfg : Config) (publicKey : String)
    (surrogateVolumeId : String) (listImagesResp : Except String (List OCIImage))
    (launchResp : Except String OCIInstance) :
    (CreateInstance cfg publicKey surrogateVolumeId listImagesResp
        launchResp).listImagesCalls =
      if cfg.BaseImageName ≠ "" then 1 else 0 := by
  by_cases hn : cfg.BaseImageName = ""
  · simp [CreateInstance, hn, launchStep_listImagesCalls]
  · cases listImagesResp with
    | error e => simp [CreateInstance, hn]
    | ok items =>
      cases items with
      | nil => simp [CreateInstance, hn]
      | cons img rest =>
        obtain ⟨oid⟩ := img
        cases oid with
        | none => simp [CreateInstance, hn]
        | some imageId => simp [CreateInstance, hn, launchStep_listImagesCalls]

/-- C4: at the failing input — a configured base-image name whose
`ListImages` lookup returns zero matching images — `CreateInstance` does
not return an error before launching: it panics (Go index out of range on
`Items[0]`), issuing the one list-by-name call and no launch call. -/
theorem C4_createInstance_empty_lookup_panics :
    CreateInstance { sampleConfig with BaseImageName := "ubuntu-20.04" }
        "ssh-rsa KEY" "" (.ok []) (.ok ⟨some "ocid1.instance.i1"⟩) =
      ⟨.panicked "index out of range", 1, []⟩ := by
  rfl

/-- C5 (counterexample): with a non-empty surrogate volume id and a
configured base-image name, `CreateInstance` still issues the image-lookup
call — one `ListImages` call, where the claim requires zero. -/
theorem C5_counterexample :
    (CreateInstance { sampleConfig with BaseImageName := "ubuntu-20.04" }
        "ssh-rsa KEY" "ocid1.bootvolume.clone1"
        (.ok [⟨some "ocid1.image.img1"⟩]) (.ok ⟨some "ocid1.instance.i1"⟩)
      ).listImagesCalls = 1 := by
  rfl

/-- C5 (amended): with a non-empty surrogate volume id, every launch call a
`CreateInstance` run issues is sourced from that boot volume rather than
from an image; however, an image-lookup (`ListImages`) call is still issued
exactly when a base-image name is also configured — the lookup is not
suppressed by the surrogate selection. -/
theorem C5_amended_surrogate_launch (cfg : Config) (publicKey : String)
    (surrogateVolumeId : String) (listImagesResp : Except String (List OCIImage))
    (launchResp : Except String OCIInstance) (hsv : surrogateVolumeId ≠ "") :
    (∀ d ∈ (CreateInstance cfg publicKey surrogateVolumeId listImagesResp
        launchResp).launchCalls,
      d.sourceDetails = InstanceSourceDetails.viaBootVolume surrogateVolumeId) ∧
      (CreateInstance cfg publicKey surrogateVolumeId listImagesResp
          launchResp).listImagesCalls =
        if cfg.BaseImageName ≠ "" then 1 else 0 := by
  constructor
  · intro d hd
    obtain ⟨imageId, h⟩ := CreateInstance_launch_source cfg publicKey surrogateVolumeId
      listImagesResp launchResp d hd
    rwa [if_pos hsv] at h
  · exact CreateInstance_listImagesCalls cfg publicKey surrogateVolumeId
      listImagesResp launchResp

/-- Witness for C5 (amended) at a concrete input: surrogate volume set, no
base-image name configured. -/
theorem C5_amended_surrogate_launch_witness :
    (∀ d ∈ (CreateInstance sampleConfig "ssh-rsa KEY" "ocid1.bootvolume.clone1"
        (.ok []) (.ok ⟨some "ocid1.instance.i1"⟩)).launchCalls,
      d.sourceDetails = InstanceSourceDetails.viaBootVolume "ocid1.bootvolume.clone1") ∧
      (CreateInstance sampleConfig "ssh-rsa KEY" "ocid1.bootvolume.clone1"
          (.ok []) (.ok ⟨some "ocid1.instance.i1"⟩)).listImagesCalls =
        if sampleConfig.BaseImageName ≠ "" then 1 else 0 :=
  C5_amended_surrogate_launch sampleConfig "ssh-rsa KEY" "ocid1.bootvolume.clone1"
    (.ok []) (.ok ⟨some "ocid1.instance.i1"⟩) (by decide)

/-- C6: at the failing input — an instance whose boot-volume-attachment
lookup returns zero attachments — `CreateBootClone` does not surface a
precondition error: it panics (Go index out of range on `Items[0]`),
issuing no `CreateBootVolume` call. -/
theorem C6_createBootClone_empty_attachments_panics :
    CreateBootClone sampleConfig "ocid1.instance.i1" (.ok [])
        (.ok ⟨some "ocid1.bootvolume.bv2"⟩) =
      ⟨.panicked "index out of range", []⟩ := by
  rfl

/-- When an attachment exists, the issued `CreateBootVolume` call is sourced
from the first attachment's boot volume id. -/
theorem CreateBootClone_first_attachment (cfg : Config) (instanceId : String)
    (attachment : BootVolumeAttachment) (rest : List BootVolumeAttachment)
    (createBootVolumeResp : Except String OCIBootVolume) :
    (CreateBootClone cfg instanceId (.ok (attachment :: rest))
        createBootVolumeResp).createBootVolumeCalls =
      [{ availabilityDomain := cfg.AvailabilityDomain
         compartmentId := cfg.CompartmentID
         sourceBootVolumeId := attachment.BootVolumeId
         sizeInGBs := cfg.BootVolumeSizeInGBs }] := by
  cases createBootVolumeResp with
  | error e => rfl
  | ok vol =>
    obtain ⟨oid⟩ := vol
    cases oid <;> rfl

/-- C8: `GetInstanceIP` fails with the zero-interfaces error on an empty
VNIC-attachment list; with `UsePrivateIP` it returns the first interface's
private address whether or not a public address is present; without
`UsePrivateIP` and with no public address on the first interface it fails
with an explicit error naming the instance, never returning an empty
string. -/
theorem C8_getInstanceIP (cfg : Config) (id : String)
    (listVnicsResp : Except String (List VnicAttachment))
    (getVnicResp : Except String Vnic) :
    (listVnicsResp = .ok [] →
        GetInstanceIP cfg id listVnicsResp getVnicResp =
          ⟨.error "instance has zero VNICs", []⟩) ∧
      (∀ (v : VnicAttachment) (rest : List VnicAttachment) (vnic : Vnic) (p : String),
        cfg.UsePrivateIP = true → listVnicsResp = .ok (v :: rest) →
        getVnicResp = .ok vnic → vnic.PrivateIp = some p →
        GetInstanceIP cfg id listVnicsResp getVnicResp = ⟨.ok p, [v.VnicId]⟩) ∧
      (∀ (v : VnicAttachment) (rest : List VnicAttachment) (vnic : Vnic),
        cfg.UsePrivateIP = false → listVnicsResp = .ok (v :: rest) →
        getVnicResp = .ok vnic → vnic.PublicIp = none →
        GetInstanceIP cfg id listVnicsResp getVnicResp =
          ⟨.error ("Error getting VNIC Public Ip for: " ++ id), [v.VnicId]⟩) := by
  refine ⟨?_, ?_, ?_⟩
  · intro h
    subst h
    rfl
  · intro v rest vnic p hpriv hlist hget hp
    subst hlist
    subst hget
    simp [GetInstanceIP, hpriv, hp]
  · intro v rest vnic hpriv hlist hget hp
    subst hlist
    subst hget
    simp [GetInstanceIP, hpriv, hp]

/-- Witness for C8 at concrete inputs: zero attachments; private preferred
with no public address present; public preferred with no public address. -/
theorem C8_getInstanceIP_witness :
    GetInstanceIP sampleConfig "ocid1.instance.i1" (.ok []) (.ok ⟨none, none⟩) =
        ⟨.error "instance has zero VNICs", []⟩ ∧
      GetInstanceIP { sampleConfig with UsePrivateIP := true } "ocid1.instance.i1"
          (.ok [⟨some "ocid1.vnic.v1"⟩]) (.ok ⟨some "10.0.0.5", none⟩) =
        ⟨.ok "10.0.0.5", [some "ocid1.vnic.v1"]⟩ ∧
      GetInstanceIP sampleConfig "ocid1.instance.i1"
          (.ok [⟨some "ocid1.vnic.v1"⟩]) (.ok ⟨some "10.0.0.5", none⟩) =
        ⟨.error ("Error getting VNIC Public Ip for: " ++ "ocid1.instance.i1"),
          [some "ocid1.vnic.v1"]⟩ :=
  ⟨(C8_getInstanceIP sampleConfig "ocid1.instance.i1" (.ok []) (.ok ⟨none, none⟩)).1
      rfl,
    (C8_getInstanceIP { sampleConfig with UsePrivateIP := true } "ocid1.instance.i1"
        (.ok [⟨some "ocid1.vnic.v1"⟩]) (.ok ⟨some "10.0.0.5", none⟩)).2.1
      ⟨some "ocid1.vnic.v1"⟩ [] ⟨some "10.0.0.5", none⟩ "10.0.0.5" rfl rfl rfl rfl,
    (C8_getInstanceIP sampleConfig "ocid1.instance.i1"
        (.ok [⟨some "ocid1.vnic.v1"⟩]) (.ok ⟨some "10.0.0.5", none⟩)).2.2
      ⟨some "ocid1.vnic.v1"⟩ [] ⟨some "10.0.0.5", none⟩ rfl rfl rfl rfl⟩

end OciSurrogate
